import Mathlib

/-!
Verification development for the PureTone-Karaoke pipeline
(`app/karaoke_engine.py` and `app/app.py`).

The Python code is shallowly embedded: every external process invocation
(ffmpeg, ffprobe, spleeter, whisper, the filesystem) is an uninterpreted
operation supplied by an `Env` record, `subprocess` failures become
`Except` errors, and each embedded function additionally returns the list
of external calls / UI events it performed, so that fallback and cleanup
behaviour is observable in the model.
-/

namespace Karaoke

/-! ## Python string / path primitives, over `List Char` -/

/-- `listPrefixOf pat s` : is `pat` a prefix of `s`? (structural, so the
kernel can evaluate it). -/
def listPrefixOf : List Char → List Char → Bool
  | [], _ => true
  | _ :: _, [] => false
  | a :: as, b :: bs => a = b && listPrefixOf as bs

/-- `listInfixOf pat s` : does `pat` occur as a contiguous substring of `s`?
This is Python's `pat in s` on strings. -/
def listInfixOf (pat : List Char) : List Char → Bool
  | [] => pat.isEmpty
  | s@(_ :: rest) => listPrefixOf pat s || listInfixOf pat rest

/-- Python's `"4stems" in model`, used throughout `separate_vocals` and in
the `app.py` fallback handler to decide whether the model is the four-stem
one. -/
def contains4stems (model : String) : Bool :=
  listInfixOf "4stems".data model.data

/-- Split a character list at every occurrence of the separator `c`
(Python `str.split(c)` / the path manipulation underlying `os.path`). -/
def splitOnChar (c : Char) : List Char → List (List Char)
  | [] => [[]]
  | a :: rest =>
    let r := splitOnChar c rest
    if a = c then [] :: r
    else
      match r with
      | [] => [[a]]
      | h :: t => (a :: h) :: t

/-- `os.path.basename` (posix): the part after the last `/`. -/
def basename (p : String) : String :=
  match (splitOnChar '/' p.data).getLast? with
  | some cs => String.mk cs
  | none => ""

/-- `os.path.dirname` (posix): the part before the last `/`, `""` when
there is no separator, `"/"` for a file directly under the root. -/
def dirname (p : String) : String :=
  let parts := splitOnChar '/' p.data
  if parts.length ≤ 1 then ""
  else
    let head := String.mk (List.intercalate ['/'] parts.dropLast)
    if head = "" then "/" else head

/-- The root part of `os.path.splitext`: drops the suffix starting at the
last dot, where leading dots of the name never start an extension. -/
def splitextRoot (s : String) : String :=
  let cs := s.data
  let lead := (cs.takeWhile (· = '.')).length
  let rest := cs.drop lead
  if rest.contains '.' then
    let extLen := (rest.reverse.takeWhile (· ≠ '.')).length
    String.mk (cs.take (cs.length - extLen - 1))
  else s

/-- Python `str.strip()`: drop leading and trailing whitespace. -/
def pyStrip (s : String) : String :=
  String.mk
    (((s.data.dropWhile Char.isWhitespace).reverse.dropWhile Char.isWhitespace).reverse)

/-- `os.path.join a b` (posix, two arguments, as used in the sources). -/
def joinPath (a b : String) : String :=
  if a.data = [] then b
  else if listPrefixOf ['/'] b.data then b
  else if a.data.getLast? = some '/' then a ++ b
  else a ++ "/" ++ b

/-! ## Errors, data model and event traces -/

/-- A Python exception as observed by the pipeline's handlers.
`calledProcessError` is `subprocess.CalledProcessError` (a `check=True`
run that exited non-zero, or `check_output` failing), tagged with a
description of the failing command; `otherError` is any other exception
(e.g. one raised inside whisper). -/
inductive PyError where
  | calledProcessError (cmd : String) : PyError
  | otherError (msg : String) : PyError
deriving Repr, DecidableEq

/-- One timed segment as returned by the recognition engine: the
`start` / `end` / `text` fields of a whisper segment dict.  Times are
modelled as exact rationals (seconds). -/
structure Segment where
  start : ℚ
  «end» : ℚ
  text : String
deriving Repr, DecidableEq

/-- An external call performed by `separate_vocals`. -/
inductive SepCall where
  /-- the `ffmpeg -ar 16000 -ac 1` downsampling run (input, output). -/
  | ffmpegDownsample (input output : String)
  /-- a `spleeter separate` run: model spec, whether `--mwf` was passed,
  output directory, input audio. -/
  | spleeter (model : String) (mwf : Bool) (outputDir input : String)
  /-- the `ffmpeg ... amix=inputs=3` run mixing drums/bass/other. -/
  | ffmpegMix (drums bass other output : String)
deriving Repr, DecidableEq

/-- An external action performed by `transcribe_audio`. -/
inductive TransEvent where
  /-- the `ffprobe` duration query. -/
  | probe (path : String)
  /-- the `ffmpeg -ar 16000 -ac 1` downsampling run (input, output). -/
  | downsample (input output : String)
  /-- the whisper invocation: model name and the audio path handed to it. -/
  | whisperCall (model path : String)
  /-- the `os.remove` attempt on the scratch file, and whether it succeeded. -/
  | remove (path : String) (ok : Bool)
deriving Repr, DecidableEq

/-- The behaviour of every external collaborator (processes and
filesystem), supplied as uninterpreted functions: the embedding is
parametric in it and the theorems quantify over it. -/
structure Env where
  /-- does the `ffmpeg -ar 16000 -ac 1 <input> <output>` run exit 0? -/
  ffmpegDownsampleOk : String → String → Bool
  /-- does `spleeter separate -p <model> [--mwf] -o <outputDir> <input>` exit 0? -/
  spleeterOk : String → Bool → String → String → Bool
  /-- `os.path.exists`. -/
  pathExists : String → Bool
  /-- does the `ffmpeg ... amix` mixing run exit 0? -/
  ffmpegMixOk : String → String → String → String → Bool
  /-- the `ffprobe` duration query on a path: `none` = the probe process
  itself fails (`check_output` raises `CalledProcessError`);
  `some none` = the process succeeds but prints empty/unparseable output
  (`float()` raises); `some (some d)` = it prints a duration `d`. -/
  probeRun : String → Option (Option ℚ)
  /-- `whisper.load_model(model).transcribe(path)["segments"]`, or the
  exception that call raises. -/
  whisperTranscribe : String → String → Except PyError (List Segment)
  /-- does `os.remove` succeed on the path? -/
  removeOk : String → Bool
  /-- does the `ffmpeg` audio-extraction run (video, audio) exit 0? -/
  extractOk : String → String → Bool
  /-- does `pysrt`'s `subs.save(path)` succeed? -/
  subtitleSaveOk : String → Bool
  /-- does the final `ffmpeg` composition run (video, instrumental,
  subtitles, output) exit 0? -/
  composeOk : String → String → String → String → Bool
  /-- does opening the produced output file for the download button succeed? -/
  openOk : String → Bool
  /-- does saving the uploaded bytes to the input path succeed? -/
  saveUploadOk : String → Bool

/-! ## `separate_vocals` (karaoke_engine.py lines 14-62) -/

/-- The output-path resolution at the end of `separate_vocals`
(lines 45-62): compute `base_name`, and when the model is four-stem *and*
`other.wav` exists, mix drums/bass/other into `accompaniment.wav`
(a further fallible ffmpeg run); otherwise return the two-stem
convention path `output_dir/base_name/accompaniment.wav` as is. -/
def separate_vocals_output (env : Env) (audio_path output_dir model : String) :
    Except PyError String × List SepCall :=
  let base_name := splitextRoot (basename audio_path)
  let stem_dir := joinPath output_dir base_name
  if contains4stems model && env.pathExists (joinPath stem_dir "other.wav") then
    let drums_path := joinPath stem_dir "drums.wav"
    let bass_path := joinPath stem_dir "bass.wav"
    let other_path := joinPath stem_dir "other.wav"
    let instrumental_path := joinPath stem_dir "accompaniment.wav"
    if env.ffmpegMixOk drums_path bass_path other_path instrumental_path then
      (.ok instrumental_path,
       [SepCall.ffmpegMix drums_path bass_path other_path instrumental_path])
    else
      (.error (.calledProcessError ("ffmpeg amix " ++ instrumental_path)),
       [SepCall.ffmpegMix drums_path bass_path other_path instrumental_path])
  else
    (.ok (joinPath stem_dir "accompaniment.wav"), [])

/-- `separate_vocals(audio_path, output_dir, model)`.

Control flow of the source: for a `"4stems"` model, first downsample to a
scratch file (`check=True`, *not* inside any `try`: its failure raises),
then run spleeter with `--mwf` on the scratch file; for other models run
spleeter directly on `audio_path`.  The spleeter run alone sits in a
`try` whose `except subprocess.CalledProcessError` recurses with
`"spleeter:2stems"` when the model is four-stem and re-raises otherwise.
After a successful run, output resolution is `separate_vocals_output`.
Returns the result together with the list of external calls made. -/
def separate_vocals (env : Env) (audio_path output_dir model : String) :
    Except PyError String × List SepCall :=
  if h4 : contains4stems model = true then
    let temp_audio := joinPath output_dir "downsampled_audio.wav"
    if env.ffmpegDownsampleOk audio_path temp_audio then
      if env.spleeterOk model true output_dir temp_audio then
        let out := separate_vocals_output env audio_path output_dir model
        (out.1,
         SepCall.ffmpegDownsample audio_path temp_audio ::
           SepCall.spleeter model true output_dir temp_audio :: out.2)
      else
        let retry := separate_vocals env audio_path output_dir "spleeter:2stems"
        (retry.1,
         SepCall.ffmpegDownsample audio_path temp_audio ::
           SepCall.spleeter model true output_dir temp_audio :: retry.2)
    else
      (.error (.calledProcessError ("ffmpeg downsample " ++ temp_audio)),
       [SepCall.ffmpegDownsample audio_path temp_audio])
  else
    if env.spleeterOk model false output_dir audio_path then
      let out := separate_vocals_output env audio_path output_dir model
      (out.1, SepCall.spleeter model false output_dir audio_path :: out.2)
    else
      (.error (.calledProcessError ("spleeter " ++ model)),
       [SepCall.spleeter model false output_dir audio_path])
  termination_by (if contains4stems model = true then 1 else 0 : Nat)
  decreasing_by
    simp only [h4, if_pos]
    decide

/-! ## `transcribe_audio` (karaoke_engine.py lines 65-101) -/

/-- `transcribe_audio(audio_path, model_name)`.

The source first runs `subprocess.check_output(ffprobe ...)` *outside*
any `try` (a probe process failure raises `CalledProcessError` to the
caller), then inside a bare `try/except: pass` parses the output with
`float` and, when the duration exceeds 180 s, sets
`temp_audio = dirname(audio_path)/downsampled_for_whisper.wav` and runs
the downsampling ffmpeg (whose failure is swallowed by the same bare
`except`, leaving `audio_path` unchanged but `temp_audio` set).  It then
invokes whisper on the resulting path, and only after a *successful*
transcription attempts `os.remove(temp_audio)` when the scratch path is
set and exists, swallowing any removal error.  Returns the result and the
list of external actions. -/
def transcribe_audio (env : Env) (audio_path model_name : String) :
    Except PyError (List Segment) × List TransEvent :=
  match env.probeRun audio_path with
  | none =>
      (.error (.calledProcessError ("ffprobe " ++ audio_path)),
       [TransEvent.probe audio_path])
  | some parsed =>
      let step :=
        match parsed with
        | none => (none, audio_path, ([] : List TransEvent))
        | some duration =>
            if duration > 180 then
              let temp := joinPath (dirname audio_path) "downsampled_for_whisper.wav"
              if env.ffmpegDownsampleOk audio_path temp then
                (some temp, temp, [TransEvent.downsample audio_path temp])
              else
                (some temp, audio_path, [TransEvent.downsample audio_path temp])
            else (none, audio_path, ([] : List TransEvent))
      match step with
      | (temp_audio, path, dsEvs) =>
        let evs := TransEvent.probe audio_path :: dsEvs
                     ++ [TransEvent.whisperCall model_name path]
        match env.whisperTranscribe model_name path with
        | .error e => (.error e, evs)
        | .ok segments =>
            let cleanEvs :=
              match temp_audio with
              | some t =>
                  if env.pathExists t then [TransEvent.remove t (env.removeOk t)]
                  else []
              | none => []
            (.ok segments, evs ++ cleanEvs)

/-! ## `app.py`: duration probe, model policy, orchestration -/

/-- `get_video_duration(video_path)` (app.py lines 68-74): the whole probe
(`check_output`, decode/strip, `float`) sits inside `try/except: return None`,
so every failure degrades to `None`. -/
def get_video_duration (env : Env) (video_path : String) : Option ℚ :=
  match env.probeRun video_path with
  | none => none
  | some none => none
  | some (some d) => some d

/-- The transcription-model policy of app.py lines 135-139:
`if duration and duration > 180 and whisper_model != "tiny": "tiny" else
whisper_model` (the `duration and` conjunct is Python truthiness: `None`
and `0.0` are falsy). -/
def select_transcription_model (duration : Option ℚ) (whisper_model : String) : String :=
  match duration with
  | some d =>
      if d ≠ 0 ∧ d > 180 ∧ whisper_model ≠ "tiny" then "tiny" else whisper_model
  | none => whisper_model

/-! ## `create_subtitles` (karaoke_engine.py lines 103-129) -/

/-- One `pysrt.SubRipItem` as built by `create_subtitles`: the index and
the `start`/`end` `timedelta(seconds=...)` values (held as exact seconds)
and the stripped text. -/
structure SubRipItem where
  index : Nat
  start : ℚ
  «end» : ℚ
  text : String
deriving Repr, DecidableEq

/-- `create_subtitles(segments, output_path)`: for each `(i, segment)` of
`enumerate(segments)` append `SubRipItem(index=i+1,
start=timedelta(seconds=segment["start"]), end=timedelta(seconds=segment["end"]),
text=segment["text"].strip())` to a fresh `SubRipFile`.  The final
`subs.save` is filesystem I/O, modelled in the orchestrator via
`Env.subtitleSaveOk`. -/
def create_subtitles (segments : List Segment) : List SubRipItem :=
  segments.enum.map fun p =>
    { index := p.1 + 1
      start := p.2.start
      «end» := p.2.«end»
      text := pyStrip p.2.text }

/-- Modelled from the spec: the third-party subtitle writer (absent from
src) renders each entry time as an `HH:MM:SS,mmm` timestamp, i.e. hours,
minutes, seconds and milliseconds of the time given in seconds. -/
def srtFields (seconds : ℚ) : ℤ × ℤ × ℤ × ℤ :=
  let ms := ⌊seconds * 1000⌋
  (ms / 3600000, ms / 60000 % 60, ms / 1000 % 60, ms % 1000)

/-- The total number of milliseconds denoted by rendered `HH:MM:SS,mmm`
fields: what a round-trip parse of the written timestamp recovers. -/
def srtOrdinal : ℤ × ℤ × ℤ × ℤ → ℤ
  | (h, m, s, ms) => h * 3600000 + m * 60000 + s * 1000 + ms

/-! ## The orchestrator (`app.py` button handler, lines 88-190) -/

/-- `extract_audio(video_path, output_path)` (karaoke_engine.py lines 7-11):
a single `check=True` ffmpeg run. -/
def extract_audio (env : Env) (video_path output_path : String) :
    Except PyError String :=
  if env.extractOk video_path output_path then .ok output_path
  else .error (.calledProcessError ("ffmpeg extract " ++ video_path))

/-- `create_final_video(...)` (karaoke_engine.py lines 132-142): a single
`check=True` ffmpeg composition run. -/
def create_final_video (env : Env)
    (video_path instrumental_path subtitle_path output_path : String)
    (subtitle_font_size : Nat) : Except PyError String :=
  if env.composeOk video_path instrumental_path subtitle_path output_path then
    .ok output_path
  else .error (.calledProcessError ("ffmpeg compose " ++ output_path))

/-- A user-visible event of the Streamlit run: progress-bar updates
(`st.progress`), status texts, warnings/infos, the error panel of the
outer `except`, the completion of `create_final_video`, and the download
button. -/
inductive AppEvent where
  | progress (percent : Nat)
  | status (text : String)
  | warning (text : String)
  | info (text : String)
  | errorShown
  | composedVideo
  | downloadOffered
deriving Repr, DecidableEq

/-- The per-run configuration of the button handler: the `mkdtemp`
directory, the uploaded size in bytes, and the user's selections. -/
structure AppConfig where
  temp_dir : String
  uploaded_size : ℚ
  whisper_model : String
  separation_model : String
  subtitle_font_size : Nat
deriving Repr

/-- The button handler of `app.py` (lines 88-190), as the list of
user-visible events it produces.  Stage order, the milestone
`progress(...)` calls, the inner `except subprocess.CalledProcessError`
fallback for separation, and the outer `except Exception` error panel
follow the source; stage outcomes come from `env`. -/
def pipeline_after_separation (env : Env) (cfg : AppConfig) (duration : Option ℚ)
    (instrumental_path : String) (t7 : List AppEvent) : List AppEvent :=
  let input_path := joinPath cfg.temp_dir "input_video.mp4"
  let audio_path := joinPath cfg.temp_dir "original_audio.wav"
  let actual_model := select_transcription_model duration cfg.whisper_model
  let infoEvs : List AppEvent :=
    match duration with
    | some d =>
        if d ≠ 0 ∧ d > 180 ∧ cfg.whisper_model ≠ "tiny" then
          [AppEvent.info "long video, using tiny model"]
        else []
    | none => []
  let t8 := t7 ++ infoEvs ++
    [AppEvent.status ("Transcribing vocals using " ++ actual_model)]
  match (transcribe_audio env audio_path actual_model).1 with
  | .error _ => t8 ++ [.errorShown]
  | .ok segments =>
  let t9 := t8 ++ [AppEvent.progress 70, AppEvent.status "Creating subtitle file..."]
  let subtitle_path := joinPath cfg.temp_dir "lyrics.srt"
  let _subs := create_subtitles segments
  if env.subtitleSaveOk subtitle_path = false then t9 ++ [.errorShown]
  else
  let t10 := t9 ++ [AppEvent.progress 80, AppEvent.status "Creating final karaoke video..."]
  let output_path := joinPath (joinPath cfg.temp_dir "output") "karaoke_output.mp4"
  match create_final_video env input_path instrumental_path subtitle_path
      output_path cfg.subtitle_font_size with
  | .error _ => t10 ++ [.errorShown]
  | .ok _ =>
  let t11 := t10 ++ [AppEvent.composedVideo, AppEvent.progress 100,
    AppEvent.status "Karaoke video generated successfully"]
  if env.openOk output_path = false then t11 ++ [.errorShown]
  else t11 ++ [AppEvent.downloadOffered]

def run_pipeline (env : Env) (cfg : AppConfig) : List AppEvent :=
  let input_path := joinPath cfg.temp_dir "input_video.mp4"
  let sizeEvs : List AppEvent :=
    if cfg.uploaded_size > 100 * 1024 * 1024 then [.warning "large file"] else []
  -- `progress_bar = st.progress(0)` renders the bar at 0%
  let t0 := sizeEvs ++ [AppEvent.progress 0]
  -- try:
  let t1 := t0 ++ [AppEvent.status "Saving uploaded file..."]
  if env.saveUploadOk input_path = false then t1 ++ [.errorShown]
  else
  let t2 := t1 ++ [AppEvent.progress 10]
  let duration := get_video_duration env input_path
  let t3 := t2 ++
    (match duration with
     | some d => if d ≠ 0 ∧ d > 300 then [AppEvent.warning "video long"] else []
     | none => [])
  let audio_path := joinPath cfg.temp_dir "original_audio.wav"
  let t4 := t3 ++ [AppEvent.status "Extracting audio from video..."]
  match extract_audio env input_path audio_path with
  | .error _ => t4 ++ [.errorShown]
  | .ok _ =>
  let t5 := t4 ++ [AppEvent.progress 20,
    AppEvent.status ("Separating vocals using " ++ cfg.separation_model)]
  -- inner try around separate_vocals, catching only CalledProcessError
  match (separate_vocals env audio_path cfg.temp_dir cfg.separation_model).1 with
  | .ok instrumental_path =>
      pipeline_after_separation env cfg duration instrumental_path
        (t5 ++ [AppEvent.progress 50])
  | .error (.calledProcessError _) =>
      if contains4stems cfg.separation_model then
        let t6 := t5 ++ [AppEvent.warning "4stems failed falling back to 2stems"]
        match (separate_vocals env audio_path cfg.temp_dir "spleeter:2stems").1 with
        | .ok instrumental_path =>
            pipeline_after_separation env cfg duration instrumental_path
              (t6 ++ [AppEvent.progress 50])
        | .error _ => t6 ++ [.errorShown]
      else t5 ++ [.errorShown]
  | .error (.otherError _) => t5 ++ [.errorShown]

/-- The progress percentages reported along a run, in order. -/
def progressValues (events : List AppEvent) : List Nat :=
  events.filterMap fun e =>
    match e with
    | .progress n => some n
    | _ => none

/-- The fixed milestone sequence of a fully successful run. -/
def milestones : List Nat := [0, 10, 20, 50, 70, 80, 100]

/-! ## Shared helper instances, lemmas and sample environments -/

instance {ε α : Type} [DecidableEq ε] [DecidableEq α] : DecidableEq (Except ε α) :=
  fun a b =>
    match a, b with
    | .ok x, .ok y => if h : x = y then .isTrue (by rw [h]) else .isFalse (by simp [h])
    | .error x, .error y => if h : x = y then .isTrue (by rw [h]) else .isFalse (by simp [h])
    | .ok _, .error _ => .isFalse (by simp)
    | .error _, .ok _ => .isFalse (by simp)

lemma contains4stems_four : contains4stems "spleeter:4stems" = true := rfl

lemma contains4stems_two : contains4stems "spleeter:2stems" = false := rfl

/-- An environment in which every external operation succeeds, the probe
reports 200 seconds, and the recognition engine returns no segments. -/
def allOk : Env where
  ffmpegDownsampleOk := fun _ _ => true
  spleeterOk := fun _ _ _ _ => true
  pathExists := fun _ => true
  ffmpegMixOk := fun _ _ _ _ => true
  probeRun := fun _ => some (some 200)
  whisperTranscribe := fun _ _ => .ok []
  removeOk := fun _ => true
  extractOk := fun _ _ => true
  subtitleSaveOk := fun _ => true
  composeOk := fun _ _ _ _ => true
  openOk := fun _ => true
  saveUploadOk := fun _ => true

/-- Whether an embedded Python call returned normally (did not raise). -/
def isOkE {α : Type} : Except PyError α → Bool
  | .ok _ => true
  | .error _ => false

/-- Environment in which the `ffmpeg` downsampling run always fails. -/
def envDownsampleFails : Env := { allOk with ffmpegDownsampleOk := fun _ _ => false }

/-- Environment in which the separation engine fails for every model
except `"spleeter:2stems"`; everything else succeeds. -/
def envFourStemEngineFails : Env :=
  { allOk with spleeterOk := fun model _ _ _ => model == "spleeter:2stems" }

/-- Environment in which no path exists on disk (in particular the
expected stem files are absent after a nominally successful run). -/
def envMissingStems : Env := { allOk with pathExists := fun _ => false }

/-- Environment in which the separation engine always fails. -/
def envSpleeterFails : Env := { allOk with spleeterOk := fun _ _ _ _ => false }

/-- Environment in which the recognition engine always raises (and the
probe reports 200 s, so a scratch file is created first). -/
def envWhisperFails : Env :=
  { allOk with whisperTranscribe := fun _ _ => .error (.otherError "whisper failed") }

/-- Environment in which the duration-probe process itself always fails
(non-zero exit of `ffprobe`). -/
def envProbeProcessFails : Env := { allOk with probeRun := fun _ => none }

/-- Environment in which the probe process succeeds but prints
unparseable output. -/
def envProbeUnparseable : Env := { allOk with probeRun := fun _ => some none }

/-- A concrete run configuration: 2-stem separation, `base` whisper
model, 24 pt subtitles, a 50 MB upload, working directory `tmp`. -/
def cfgKaraoke : AppConfig where
  temp_dir := "tmp"
  uploaded_size := 50000000
  whisper_model := "base"
  separation_model := "spleeter:2stems"
  subtitle_font_size := 24

/-! ## Claims C1-C4: the vocal-separation fallback policy -/

/-- **C1, counterexample.**  The claim says a FourStem call never raises,
absorbing failures of its preprocessing too.  But the `ffmpeg`
downsampling run of the FourStem branch sits *outside* the `try`, so in
an environment where that run fails, `separate_vocals` with the FourStem
model propagates the `CalledProcessError` to its caller. -/
theorem fourstem_preprocessing_failure_raises :
    (separate_vocals envDownsampleFails "music/song.wav" "work" "spleeter:4stems").1
      = Except.error (PyError.calledProcessError
          "ffmpeg downsample work/downsampled_audio.wav") := by
  rw [separate_vocals]
  simp [envDownsampleFails, allOk, contains4stems_four]
  rfl

/-- **C1** (amended): only a failure of the separation-engine invocation
itself is absorbed by the FourStem path.  When the `ffmpeg` steps of the
FourStem branch (preprocessing downsample, post-processing stem mix) and
the TwoStem engine all succeed, `separate_vocals` with the FourStem model
never raises, whatever the FourStem engine does: engine failure silently
degrades to the TwoStem path. -/
theorem fourstem_engine_failure_is_absorbed (env : Env)
    (audio_path output_dir : String)
    (hdown : ∀ x y, env.ffmpegDownsampleOk x y = true)
    (hmix : ∀ p q r s, env.ffmpegMixOk p q r s = true)
    (htwo : ∀ od ap, env.spleeterOk "spleeter:2stems" false od ap = true) :
    ∃ p, (separate_vocals env audio_path output_dir "spleeter:4stems").1
      = Except.ok p := by
  rw [separate_vocals]
  simp only [contains4stems_four, hdown, if_true, dite_true, reduceDIte, reduceIte]
  by_cases hsp : env.spleeterOk "spleeter:4stems" true output_dir
      (joinPath output_dir "downsampled_audio.wav") = true
  · simp only [hsp, if_true, separate_vocals_output, contains4stems_four, Bool.true_and]
    by_cases hex : env.pathExists (joinPath
        (joinPath output_dir (splitextRoot (basename audio_path))) "other.wav") = true
    · simp [hex, hmix]
    · simp [hex]
  · simp only [hsp, if_false, Bool.not_eq_true] at *
    rw [separate_vocals]
    simp [contains4stems_two, htwo, hsp, separate_vocals_output]

/-- Witness for the amended C1 at a concrete environment where the
FourStem engine always fails but everything else succeeds. -/
theorem fourstem_engine_failure_is_absorbed_witness :
    ∃ p, (separate_vocals envFourStemEngineFails "music/song.wav" "work"
      "spleeter:4stems").1 = Except.ok p :=
  fourstem_engine_failure_is_absorbed envFourStemEngineFails "music/song.wav" "work"
    (fun _ _ => rfl) (fun _ _ _ _ => rfl) (fun _ _ => rfl)

/-- **C2** (confirmed): when the FourStem engine invocation itself fails
(non-zero exit, after a successful downsample), the FourStem call returns
exactly the TwoStem call's result on the same audio and directory. -/
theorem fourstem_failure_returns_twostem_result (env : Env)
    (audio_path output_dir : String)
    (hdown : env.ffmpegDownsampleOk audio_path
        (joinPath output_dir "downsampled_audio.wav") = true)
    (hfail : env.spleeterOk "spleeter:4stems" true output_dir
        (joinPath output_dir "downsampled_audio.wav") = false) :
    (separate_vocals env audio_path output_dir "spleeter:4stems").1
      = (separate_vocals env audio_path output_dir "spleeter:2stems").1 := by
  rw [separate_vocals]
  simp [contains4stems_four, hdown, hfail]

/-- Witness for C2 at a concrete environment whose separation engine
fails exactly on the FourStem model. -/
theorem fourstem_failure_returns_twostem_result_witness :
    (separate_vocals envFourStemEngineFails "music/song.wav" "work"
        "spleeter:4stems").1
      = (separate_vocals envFourStemEngineFails "music/song.wav" "work"
        "spleeter:2stems").1 :=
  fourstem_failure_returns_twostem_result envFourStemEngineFails "music/song.wav"
    "work" (by decide) (by decide)

/-- **C3, counterexample.**  The claim says that a successful FourStem run
with absent stem files is treated like an engine failure, with the same
fallback, "rather than returning a path to a non-existent file".  In an
environment where the engine reports success but no stem file exists,
`separate_vocals` performs no retry at all (its call trace holds a single
spleeter invocation) and returns the two-stem-convention accompaniment
path, a path that does not exist in that environment. -/
theorem missing_stems_no_fallback :
    (separate_vocals envMissingStems "music/song.wav" "work" "spleeter:4stems")
      = (Except.ok "work/song/accompaniment.wav",
         [SepCall.ffmpegDownsample "music/song.wav" "work/downsampled_audio.wav",
          SepCall.spleeter "spleeter:4stems" true "work" "work/downsampled_audio.wav"])
  ∧ envMissingStems.pathExists "work/song/accompaniment.wav" = false := by
  constructor
  · rw [separate_vocals]
    simp [envMissingStems, allOk, contains4stems_four, separate_vocals_output]
    exact ⟨rfl, rfl⟩
  · rfl

/-- **C3** (amended): when the FourStem engine exits successfully but the
expected `other.wav` stem is absent, `separate_vocals` applies no
fallback and re-invokes no engine: it simply returns the
two-stem-convention `accompaniment.wav` path under the conventional
output directory, without checking that this path exists. -/
theorem missing_stems_returns_unchecked_path (env : Env)
    (audio_path output_dir : String)
    (hdown : env.ffmpegDownsampleOk audio_path
        (joinPath output_dir "downsampled_audio.wav") = true)
    (hok : env.spleeterOk "spleeter:4stems" true output_dir
        (joinPath output_dir "downsampled_audio.wav") = true)
    (hmiss : env.pathExists (joinPath
        (joinPath output_dir (splitextRoot (basename audio_path))) "other.wav")
      = false) :
    separate_vocals env audio_path output_dir "spleeter:4stems"
      = (Except.ok (joinPath
            (joinPath output_dir (splitextRoot (basename audio_path)))
            "accompaniment.wav"),
         [SepCall.ffmpegDownsample audio_path
            (joinPath output_dir "downsampled_audio.wav"),
          SepCall.spleeter "spleeter:4stems" true output_dir
            (joinPath output_dir "downsampled_audio.wav")]) := by
  rw [separate_vocals]
  simp [contains4stems_four, hdown, hok, separate_vocals_output, hmiss]

/-- Witness for the amended C3 at the concrete no-file environment. -/
theorem missing_stems_returns_unchecked_path_witness :
    separate_vocals envMissingStems "music/song.wav" "work" "spleeter:4stems"
      = (Except.ok "work/song/accompaniment.wav",
         [SepCall.ffmpegDownsample "music/song.wav" "work/downsampled_audio.wav",
          SepCall.spleeter "spleeter:4stems" true "work" "work/downsampled_audio.wav"]) :=
  missing_stems_returns_unchecked_path envMissingStems "music/song.wav" "work"
    (by decide) (by decide) (by decide)

/-- **C4** (confirmed): when the TwoStem engine invocation fails, the
TwoStem call raises the engine-invocation error and performs no further
fallback: its whole call trace is that single engine invocation. -/
theorem twostem_failure_raises (env : Env) (audio_path output_dir : String)
    (hfail : env.spleeterOk "spleeter:2stems" false output_dir audio_path = false) :
    separate_vocals env audio_path output_dir "spleeter:2stems"
      = (Except.error (PyError.calledProcessError ("spleeter " ++ "spleeter:2stems")),
         [SepCall.spleeter "spleeter:2stems" false output_dir audio_path]) := by
  rw [separate_vocals]
  simp [contains4stems_two, hfail]

/-- Witness for C4 at a concrete environment whose separation engine
always fails. -/
theorem twostem_failure_raises_witness :
    separate_vocals envSpleeterFails "music/song.wav" "work" "spleeter:2stems"
      = (Except.error (PyError.calledProcessError ("spleeter " ++ "spleeter:2stems")),
         [SepCall.spleeter "spleeter:2stems" false "work" "music/song.wav"]) :=
  twostem_failure_raises envSpleeterFails "music/song.wav" "work" rfl

/-! ## Claims C5-C7: the transcription policy and the duration probe -/

/-- `transcribe_audio` hands the recognition engine exactly the model
name it was called with: whenever the probe process does not hard-fail,
the trace holds a whisper invocation with that model, and every whisper
invocation in the trace carries that model. -/
lemma transcribe_audio_invokes_model (env : Env) (a m : String) :
    (env.probeRun a ≠ none →
      ∃ p, TransEvent.whisperCall m p ∈ (transcribe_audio env a m).2)
  ∧ ∀ m' p, TransEvent.whisperCall m' p ∈ (transcribe_audio env a m).2 → m' = m := by
  unfold transcribe_audio
  rcases hpr : env.probeRun a with _ | pr
  · simp
  · rcases pr with _ | dval
    · rcases hw : env.whisperTranscribe m a with e | segs <;> simp [hw]
    · by_cases hd : dval > 180
      · by_cases hds : env.ffmpegDownsampleOk a
            (joinPath (dirname a) "downsampled_for_whisper.wav") = true
        · rcases hw : env.whisperTranscribe m
              (joinPath (dirname a) "downsampled_for_whisper.wav") with e | segs <;>
            by_cases hex : env.pathExists
                (joinPath (dirname a) "downsampled_for_whisper.wav") = true <;>
            simp [hd, hds, hw, hex]
        · rcases hw : env.whisperTranscribe m a with e | segs <;>
            by_cases hex : env.pathExists
                (joinPath (dirname a) "downsampled_for_whisper.wav") = true <;>
            simp [hd, hds, hw, hex]
      · rcases hw : env.whisperTranscribe m a with e | segs <;> simp [hd, hw]

/-- **C5** (confirmed): the duration-based transcription-model policy.
With a known duration above 180 s and a requested model other than
`"tiny"`, the model handed to the recognition engine is `"tiny"`; with a
duration at most 180 s, an unknown duration, or `"tiny"` already
requested, the requested model is used unchanged — and `transcribe_audio`
invokes the recognition engine with exactly the model it is handed. -/
theorem transcription_model_policy (env : Env) (audio_path whisper_model : String)
    (d : ℚ) :
    (d > 180 → whisper_model ≠ "tiny" →
        select_transcription_model (some d) whisper_model = "tiny")
  ∧ (d ≤ 180 → select_transcription_model (some d) whisper_model = whisper_model)
  ∧ select_transcription_model none whisper_model = whisper_model
  ∧ select_transcription_model (some d) "tiny" = "tiny"
  ∧ (∀ m, env.probeRun audio_path ≠ none →
        ∃ p, TransEvent.whisperCall m p ∈ (transcribe_audio env audio_path m).2)
  ∧ (∀ m m' p, TransEvent.whisperCall m' p ∈ (transcribe_audio env audio_path m).2
        → m' = m) := by
  refine ⟨?_, ?_, ?_, ?_, ?_, ?_⟩
  · intro hd hm
    have h0 : d ≠ 0 := by intro h; rw [h] at hd; norm_num at hd
    simp [select_transcription_model, h0, hd, hm]
  · intro hd
    simp only [select_transcription_model, ite_eq_right_iff, and_imp]
    intro _ hgt _
    exact absurd hd (not_le.mpr hgt)
  · rfl
  · simp [select_transcription_model]
  · exact fun m => (transcribe_audio_invokes_model env audio_path m).1
  · exact fun m => (transcribe_audio_invokes_model env audio_path m).2

/-- Witness for C5: with a 200-second duration and requested model
`"base"`, the policy selects `"tiny"`; with 100 seconds it keeps
`"base"`; and in the all-success environment the engine is invoked with
the selected model. -/
theorem transcription_model_policy_witness :
    select_transcription_model (some 200) "base" = "tiny"
  ∧ select_transcription_model (some 100) "base" = "base"
  ∧ ∃ p, TransEvent.whisperCall "tiny" p
      ∈ (transcribe_audio allOk "music/song.wav" "tiny").2 :=
  ⟨(transcription_model_policy allOk "music/song.wav" "base" 200).1
      (by norm_num) (by decide),
   (transcription_model_policy allOk "music/song.wav" "base" 100).2.1 (by norm_num),
   (transcription_model_policy allOk "music/song.wav" "base" 200).2.2.2.2.1 "tiny"
      (by simp [allOk])⟩

/-- **C6, counterexample.**  The claim says the downsampled scratch file
is deleted after the recognition call on every outcome, raising
included.  In an environment with a 200-second input (so the scratch
file is created) whose recognition engine raises, the cleanup block is
never reached: the trace ends at the whisper invocation and contains no
removal attempt on the scratch path. -/
theorem scratch_not_deleted_on_failure :
    (transcribe_audio envWhisperFails "music/song.wav" "base")
      = (Except.error (PyError.otherError "whisper failed"),
         [TransEvent.probe "music/song.wav",
          TransEvent.downsample "music/song.wav" "music/downsampled_for_whisper.wav",
          TransEvent.whisperCall "base" "music/downsampled_for_whisper.wav"])
  ∧ TransEvent.remove "music/downsampled_for_whisper.wav" true
      ∉ (transcribe_audio envWhisperFails "music/song.wav" "base").2
  ∧ TransEvent.remove "music/downsampled_for_whisper.wav" false
      ∉ (transcribe_audio envWhisperFails "music/song.wav" "base").2 := by
  refine ⟨rfl, ?_, ?_⟩ <;> decide

/-- **C6** (amended): when a scratch path is set up (known duration over
180 s), the removal of the scratch file is attempted exactly on the
success path — after a successful recognition call, when the path exists,
the trace holds the removal attempt (whether or not the removal itself
succeeds); after a raising recognition call no removal is attempted and
the scratch file is left behind; and the call's result never depends on
the removal outcome. -/
theorem scratch_deletion_policy (env : Env) (a m : String) (d : ℚ)
    (hpr : env.probeRun a = some (some d)) (hd : d > 180) :
    (isOkE (transcribe_audio env a m).1 = true →
        env.pathExists (joinPath (dirname a) "downsampled_for_whisper.wav") = true →
        TransEvent.remove (joinPath (dirname a) "downsampled_for_whisper.wav")
            (env.removeOk (joinPath (dirname a) "downsampled_for_whisper.wav"))
          ∈ (transcribe_audio env a m).2)
  ∧ (isOkE (transcribe_audio env a m).1 = false →
        TransEvent.remove (joinPath (dirname a) "downsampled_for_whisper.wav") true
            ∉ (transcribe_audio env a m).2
      ∧ TransEvent.remove (joinPath (dirname a) "downsampled_for_whisper.wav") false
            ∉ (transcribe_audio env a m).2)
  ∧ ∀ f, (transcribe_audio { env with removeOk := f } a m).1
      = (transcribe_audio env a m).1 := by
  unfold transcribe_audio
  by_cases hds : env.ffmpegDownsampleOk a
      (joinPath (dirname a) "downsampled_for_whisper.wav") = true
  · rcases hw : env.whisperTranscribe m
        (joinPath (dirname a) "downsampled_for_whisper.wav") with e | segs <;>
      by_cases hex : env.pathExists
          (joinPath (dirname a) "downsampled_for_whisper.wav") = true <;>
      simp [hpr, hd, hds, hw, hex, isOkE]
  · rcases hw : env.whisperTranscribe m a with e | segs <;>
      by_cases hex : env.pathExists
          (joinPath (dirname a) "downsampled_for_whisper.wav") = true <;>
      simp [hpr, hd, hds, hw, hex, isOkE]

/-- Witness for the amended C6: in the all-success environment (duration
200 s) the removal of the scratch file is attempted after the successful
recognition call. -/
theorem scratch_deletion_policy_witness :
    TransEvent.remove "music/downsampled_for_whisper.wav" true
      ∈ (transcribe_audio allOk "music/song.wav" "base").2 :=
  (scratch_deletion_policy allOk "music/song.wav" "base" 200 rfl
    (by norm_num)).1 rfl rfl

/-- **C7, counterexample.**  The claim says no pipeline operation raises
because of a duration-probe failure.  But in `transcribe_audio` the
`subprocess.check_output` probe call sits *before* the `try`, so in an
environment where the probe process fails, `transcribe_audio` raises the
`CalledProcessError` to its caller. -/
theorem probe_process_failure_raises :
    transcribe_audio envProbeProcessFails "music/song.wav" "base"
      = (Except.error (PyError.calledProcessError "ffprobe music/song.wav"),
         [TransEvent.probe "music/song.wav"]) := by
  simp [transcribe_audio, envProbeProcessFails, allOk]

/-- **C7** (amended): the app-level duration query `get_video_duration`
returns `None` on every probe failure — process failure or unparseable
output — and the duration policy then leaves the requested model
unchanged; inside `transcribe_audio`, unparseable probe *output* is
likewise absorbed (transcription proceeds on the original audio and
returns exactly what the recognition engine returns), but a failure of
the probe *process* raises a `CalledProcessError` out of
`transcribe_audio`. -/
theorem probe_failure_policy (env : Env) (p m : String) :
    (env.probeRun p = none → get_video_duration env p = none)
  ∧ (env.probeRun p = some none → get_video_duration env p = none)
  ∧ ((env.probeRun p = none ∨ env.probeRun p = some none) →
        select_transcription_model (get_video_duration env p) m = m)
  ∧ (env.probeRun p = some none →
        (transcribe_audio env p m).1 = env.whisperTranscribe m p)
  ∧ (env.probeRun p = none →
        (transcribe_audio env p m).1
          = Except.error (PyError.calledProcessError ("ffprobe " ++ p))) := by
  refine ⟨?_, ?_, ?_, ?_, ?_⟩
  · intro h; simp [get_video_duration, h]
  · intro h; simp [get_video_duration, h]
  · rintro (h | h) <;> simp [get_video_duration, h, select_transcription_model]
  · intro h
    rcases hw : env.whisperTranscribe m p with e | segs <;>
      simp [transcribe_audio, h, hw]
  · intro h; simp [transcribe_audio, h]

/-- Witness for the amended C7: with a failing probe process the duration
query returns `None`, and with unparseable probe output the transcription
still returns the engine's segments. -/
theorem probe_failure_policy_witness :
    get_video_duration envProbeProcessFails "music/input_video.mp4" = none
  ∧ (transcribe_audio envProbeUnparseable "music/song.wav" "base").1
      = Except.ok [] :=
  ⟨(probe_failure_policy envProbeProcessFails "music/input_video.mp4" "base").1 rfl,
   (probe_failure_policy envProbeUnparseable "music/song.wav" "base").2.2.2.1 rfl⟩

/-! ## Claims C8 and C10: the subtitle writer -/

/-- The rendered `HH:MM:SS,mmm` fields of a time determine it exactly to
the millisecond: parsing them back recovers `⌊q * 1000⌋` milliseconds. -/
lemma srtOrdinal_srtFields (q : ℚ) : srtOrdinal (srtFields q) = ⌊q * 1000⌋ := by
  show (⌊q * 1000⌋ / 3600000) * 3600000 + (⌊q * 1000⌋ / 60000 % 60) * 60000
      + (⌊q * 1000⌋ / 1000 % 60) * 1000 + ⌊q * 1000⌋ % 1000 = ⌊q * 1000⌋
  omega

/-- The entry built by `create_subtitles` for position `i`. -/
lemma create_subtitles_get (segments : List Segment) (i : Nat)
    (h : i < segments.length) (h2 : i < (create_subtitles segments).length) :
    (create_subtitles segments).get ⟨i, h2⟩
      = { index := i + 1
          start := (segments.get ⟨i, h⟩).start
          «end» := (segments.get ⟨i, h⟩).«end»
          text := pyStrip (segments.get ⟨i, h⟩).text } := by
  simp [create_subtitles, List.get_eq_getElem, List.getElem_map, List.getElem_enum]

lemma create_subtitles_length (segments : List Segment) :
    (create_subtitles segments).length = segments.length := by
  simp [create_subtitles]

/-- **C8** (confirmed): on `n` segments the subtitle writer produces
exactly `n` entries in input order (entry `i` comes from segment `i`),
with 1-based sequential indices, start/end carried over from the
segment's seconds — determining the rendered `HH:MM:SS,mmm` timestamp to
the millisecond — and the text stripped of surrounding whitespace; on no
segments it produces the empty entry list (a valid empty subtitle file). -/
theorem create_subtitles_spec (segments : List Segment) :
    (create_subtitles segments).length = segments.length
  ∧ (segments = [] → create_subtitles segments = [])
  ∧ ∀ i (h : i < segments.length) (h2 : i < (create_subtitles segments).length),
      ((create_subtitles segments).get ⟨i, h2⟩).index = i + 1
    ∧ ((create_subtitles segments).get ⟨i, h2⟩).start = (segments.get ⟨i, h⟩).start
    ∧ ((create_subtitles segments).get ⟨i, h2⟩).«end» = (segments.get ⟨i, h⟩).«end»
    ∧ ((create_subtitles segments).get ⟨i, h2⟩).text = pyStrip (segments.get ⟨i, h⟩).text
    ∧ srtOrdinal (srtFields ((create_subtitles segments).get ⟨i, h2⟩).start)
        = ⌊(segments.get ⟨i, h⟩).start * 1000⌋
    ∧ srtOrdinal (srtFields ((create_subtitles segments).get ⟨i, h2⟩).«end»)
        = ⌊(segments.get ⟨i, h⟩).«end» * 1000⌋ := by
  refine ⟨create_subtitles_length segments, fun hemp => by simp [hemp, create_subtitles],
    fun i h h2 => ?_⟩
  rw [create_subtitles_get segments i h h2]
  exact ⟨rfl, rfl, rfl, rfl, srtOrdinal_srtFields _, srtOrdinal_srtFields _⟩

/-- Witness for C8 on a concrete two-segment input. -/
theorem create_subtitles_spec_witness :
    (create_subtitles
        [{ start := 1/2, «end» := 2, text := " hello " },
         { start := 2, «end» := 7/2, text := "world" }]).length = 2
  ∧ ((create_subtitles
        [{ start := 1/2, «end» := 2, text := " hello " },
         { start := 2, «end» := 7/2, text := "world" }]).get ⟨1, by decide⟩).index = 2
  ∧ ((create_subtitles
        [{ start := 1/2, «end» := 2, text := " hello " },
         { start := 2, «end» := 7/2, text := "world" }]).get ⟨1, by decide⟩).text
      = "world"
  ∧ ((create_subtitles
        [{ start := 1/2, «end» := 2, text := " hello " },
         { start := 2, «end» := 7/2, text := "world" }]).get ⟨0, by decide⟩).text
      = "hello" := by
  have h := create_subtitles_spec
    [{ start := 1/2, «end» := 2, text := " hello " },
     { start := 2, «end» := 7/2, text := "world" }]
  refine ⟨h.1, (h.2.2 1 (by decide) (by decide)).1, ?_, ?_⟩
  · rw [(h.2.2 1 (by decide) (by decide)).2.2.2.1]; rfl
  · rw [(h.2.2 0 (by decide) (by decide)).2.2.2.1]; rfl

/-- **C10** (confirmed): the subtitle writer enforces no time invariant:
even for a segment with a negative start or with `end ≤ start` it emits
the entry with those time values verbatim — no rejection, clamping or
skipping — and the entry count always equals the segment count. -/
theorem create_subtitles_time_values_verbatim (segments : List Segment) (i : Nat)
    (h : i < segments.length)
    (hbad : (segments.get ⟨i, h⟩).start < 0
          ∨ (segments.get ⟨i, h⟩).«end» ≤ (segments.get ⟨i, h⟩).start) :
    (create_subtitles segments).length = segments.length
  ∧ ∃ h2 : i < (create_subtitles segments).length,
      ((create_subtitles segments).get ⟨i, h2⟩).start = (segments.get ⟨i, h⟩).start
    ∧ ((create_subtitles segments).get ⟨i, h2⟩).«end» = (segments.get ⟨i, h⟩).«end» := by
  have hlen := create_subtitles_length segments
  have h2 : i < (create_subtitles segments).length := by rw [hlen]; exact h
  exact ⟨hlen, h2, by rw [create_subtitles_get segments i h h2],
    by rw [create_subtitles_get segments i h h2]⟩

/-- Witness for C10 on a concrete invalid segment (negative start, end
before start): the entry still carries `-5` and `-10` verbatim. -/
theorem create_subtitles_time_values_verbatim_witness :
    (create_subtitles [{ start := -5, «end» := -10, text := " hi " }]).length = 1
  ∧ ∃ h2 : 0 < (create_subtitles [{ start := -5, «end» := -10, text := " hi " }]).length,
      ((create_subtitles [{ start := -5, «end» := -10, text := " hi " }]).get ⟨0, h2⟩).start
          = -5
    ∧ ((create_subtitles [{ start := -5, «end» := -10, text := " hi " }]).get ⟨0, h2⟩).«end»
          = -10 := by
  have h := create_subtitles_time_values_verbatim
    [{ start := -5, «end» := -10, text := " hi " }] 0 (by decide)
    (Or.inl (by norm_num))
  simpa using h

/-! ## Claim C9: progress milestones of the orchestrator -/

@[simp] lemma progressValues_append (a b : List AppEvent) :
    progressValues (a ++ b) = progressValues a ++ progressValues b := by
  simp [progressValues]

@[simp] lemma progressValues_nil : progressValues [] = [] := rfl

@[simp] lemma progressValues_progress_cons (n : Nat) (l : List AppEvent) :
    progressValues (AppEvent.progress n :: l) = n :: progressValues l := rfl

@[simp] lemma progressValues_status_cons (s : String) (l : List AppEvent) :
    progressValues (AppEvent.status s :: l) = progressValues l := rfl

@[simp] lemma progressValues_warning_cons (s : String) (l : List AppEvent) :
    progressValues (AppEvent.warning s :: l) = progressValues l := rfl

@[simp] lemma progressValues_info_cons (s : String) (l : List AppEvent) :
    progressValues (AppEvent.info s :: l) = progressValues l := rfl

@[simp] lemma progressValues_errorShown_cons (l : List AppEvent) :
    progressValues (AppEvent.errorShown :: l) = progressValues l := rfl

@[simp] lemma progressValues_composedVideo_cons (l : List AppEvent) :
    progressValues (AppEvent.composedVideo :: l) = progressValues l := rfl

@[simp] lemma progressValues_downloadOffered_cons (l : List AppEvent) :
    progressValues (AppEvent.downloadOffered :: l) = progressValues l := rfl

@[simp] lemma progressValues_opt_warning (c : Prop) [Decidable c] (s : String) :
    progressValues (if c then [AppEvent.warning s] else []) = [] := by
  split_ifs <;> rfl

@[simp] lemma progressValues_opt_info (c : Prop) [Decidable c] (s : String) :
    progressValues (if c then [AppEvent.info s] else []) = [] := by
  split_ifs <;> rfl

@[simp] lemma composedVideo_not_mem_opt_warning (c : Prop) [Decidable c] (s : String) :
    AppEvent.composedVideo ∉ (if c then [AppEvent.warning s] else []) := by
  split_ifs <;> simp

@[simp] lemma composedVideo_not_mem_opt_info (c : Prop) [Decidable c] (s : String) :
    AppEvent.composedVideo ∉ (if c then [AppEvent.info s] else []) := by
  split_ifs <;> simp

/-- After a successful separation (progress so far `[0,10,20,50]`), the
remaining stages report a further prefix of `70, 80, 100`, with the
composition marker present exactly when `100` is reached. -/
lemma pipeline_after_separation_char (env : Env) (cfg : AppConfig)
    (duration : Option ℚ) (instr : String) (t7 : List AppEvent)
    (hpv : progressValues t7 = [0, 10, 20, 50])
    (hcv : AppEvent.composedVideo ∉ t7) :
    ∃ k, 4 ≤ k ∧ k ≤ 7
      ∧ progressValues (pipeline_after_separation env cfg duration instr t7)
          = milestones.take k
      ∧ (AppEvent.composedVideo ∈ pipeline_after_separation env cfg duration instr t7
          ↔ k = 7) := by
  unfold pipeline_after_separation
  rcases htr : (transcribe_audio env (joinPath cfg.temp_dir "original_audio.wav")
      (select_transcription_model duration cfg.whisper_model)).1 with e | segments
  · refine ⟨4, by norm_num, by norm_num, ?_, ?_⟩ <;>
      rcases duration with _ | d <;>
      simp [htr, hpv, milestones, hcv] <;> try decide
  · by_cases hsub : env.subtitleSaveOk (joinPath cfg.temp_dir "lyrics.srt") = false
    · refine ⟨5, by norm_num, by norm_num, ?_, ?_⟩ <;>
        rcases duration with _ | d <;>
        simp [htr, hsub, hpv, milestones, hcv] <;> try decide
    · by_cases hco : env.composeOk (joinPath cfg.temp_dir "input_video.mp4") instr
          (joinPath cfg.temp_dir "lyrics.srt")
          (joinPath (joinPath cfg.temp_dir "output") "karaoke_output.mp4") = true
      · by_cases hop : env.openOk
            (joinPath (joinPath cfg.temp_dir "output") "karaoke_output.mp4") = false
        · refine ⟨7, by norm_num, by norm_num, ?_, ?_⟩ <;>
            rcases duration with _ | d <;>
            simp [htr, hsub, hco, hop, create_final_video, hpv, milestones, hcv] <;>
            try decide
        · refine ⟨7, by norm_num, by norm_num, ?_, ?_⟩ <;>
            rcases duration with _ | d <;>
            simp [htr, hsub, hco, hop, create_final_video, hpv, milestones, hcv] <;>
            try decide
      · refine ⟨6, by norm_num, by norm_num, ?_, ?_⟩ <;>
          rcases duration with _ | d <;>
          simp [htr, hsub, hco, create_final_video, hpv, milestones, hcv] <;>
          try decide

/-- Relax the lower progress-prefix bound from 4 to 1. -/
lemma exists_k_lift {res : List AppEvent}
    (h : ∃ k, 4 ≤ k ∧ k ≤ 7 ∧ progressValues res = milestones.take k
          ∧ (AppEvent.composedVideo ∈ res ↔ k = 7)) :
    ∃ k, 1 ≤ k ∧ k ≤ 7 ∧ progressValues res = milestones.take k
      ∧ (AppEvent.composedVideo ∈ res ↔ k = 7) := by
  obtain ⟨k, h4, h7, hp, hc⟩ := h
  exact ⟨k, by omega, h7, hp, hc⟩

/-- Every run's reported progress sequence is a prefix of
`[0, 10, 20, 50, 70, 80, 100]` of length 1 to 7, full exactly when the
final composition completed. -/
lemma run_pipeline_progress_char (env : Env) (cfg : AppConfig) :
    ∃ k, 1 ≤ k ∧ k ≤ 7
      ∧ progressValues (run_pipeline env cfg) = milestones.take k
      ∧ (AppEvent.composedVideo ∈ run_pipeline env cfg ↔ k = 7) := by
  unfold run_pipeline
  by_cases hsave : env.saveUploadOk (joinPath cfg.temp_dir "input_video.mp4") = false
  · refine ⟨1, le_refl 1, by norm_num, ?_, ?_⟩ <;>
      simp [hsave, milestones] <;> try decide
  · rcases hdur : get_video_duration env (joinPath cfg.temp_dir "input_video.mp4")
        with _ | d <;>
    [skip; skip] <;>
    (by_cases hex : env.extractOk (joinPath cfg.temp_dir "input_video.mp4")
        (joinPath cfg.temp_dir "original_audio.wav") = true
     · rcases hsep : (separate_vocals env (joinPath cfg.temp_dir "original_audio.wav")
           cfg.temp_dir cfg.separation_model).1 with e | instr
       · rcases e with cmd | msg
         · by_cases h4 : contains4stems cfg.separation_model = true
           · rcases hsep2 : (separate_vocals env
                 (joinPath cfg.temp_dir "original_audio.wav")
                 cfg.temp_dir "spleeter:2stems").1 with e2 | instr2
             · refine ⟨3, by norm_num, by norm_num, ?_, ?_⟩ <;>
                 simp [hsave, hdur, hex, extract_audio, hsep, h4, hsep2, milestones] <;>
                 try decide
             · simp only [hsave, hdur, hex, extract_audio, hsep, h4, hsep2,
                 if_true, if_false, ite_true, ite_false, eq_self_iff_true,
                 Bool.true_eq_false, not_false_iff]
               exact exists_k_lift (pipeline_after_separation_char env cfg _ _ _
                 (by simp) (by simp))
           · refine ⟨3, by norm_num, by norm_num, ?_, ?_⟩ <;>
               simp [hsave, hdur, hex, extract_audio, hsep, h4, milestones] <;>
               try decide
         · refine ⟨3, by norm_num, by norm_num, ?_, ?_⟩ <;>
             simp [hsave, hdur, hex, extract_audio, hsep, milestones] <;> try decide
       · simp only [hsave, hdur, hex, extract_audio, hsep,
           if_true, if_false, ite_true, ite_false, eq_self_iff_true,
           Bool.true_eq_false, not_false_iff]
         exact exists_k_lift (pipeline_after_separation_char env cfg _ _ _
           (by simp) (by simp))
     · refine ⟨2, by norm_num, by norm_num, ?_, ?_⟩ <;>
         simp [hsave, hdur, hex, extract_audio, milestones] <;> try decide)

/-- **C9, counterexample.**  The claim says the reported progress
percentages take only the values 10/20/50/70/80/100.  But the handler
creates the progress bar with `st.progress(0)`: on the concrete
all-success run the first reported value is 0, which is not among the
claimed milestone set. -/
theorem progress_zero_reported :
    (0 : Nat) ∈ progressValues (run_pipeline allOk cfgKaraoke)
  ∧ (0 : Nat) ∉ ([10, 20, 50, 70, 80, 100] : List Nat) := by
  constructor
  · obtain ⟨k, hk1, hk7, hpv, _⟩ := run_pipeline_progress_char allOk cfgKaraoke
    rw [hpv]
    interval_cases k <;> decide
  · decide

/-- **C9** (amended): along every execution (the separation-fallback path
included) the reported progress sequence is monotonically non-decreasing
and takes only values in {0, 10, 20, 50, 70, 80, 100}: the first report
is the progress bar's initial 0, 0 is reported nowhere else, and 100 is
reached exactly when the final video composition completes. -/
theorem progress_milestone_policy (env : Env) (cfg : AppConfig) :
    List.Chain' (· ≤ ·) (progressValues (run_pipeline env cfg))
  ∧ (∀ p ∈ progressValues (run_pipeline env cfg), p ∈ milestones)
  ∧ (progressValues (run_pipeline env cfg)).head? = some 0
  ∧ (0 : Nat) ∉ (progressValues (run_pipeline env cfg)).tail
  ∧ ((100 ∈ progressValues (run_pipeline env cfg))
      ↔ AppEvent.composedVideo ∈ run_pipeline env cfg) := by
  obtain ⟨k, hk1, hk7, hpv, hcv⟩ := run_pipeline_progress_char env cfg
  refine ⟨?_, ?_, ?_, ?_, ?_⟩
  · rw [hpv]
    interval_cases k <;>
      simp [show milestones.take 1 = [0] from rfl,
        show milestones.take 2 = [0, 10] from rfl,
        show milestones.take 3 = [0, 10, 20] from rfl,
        show milestones.take 4 = [0, 10, 20, 50] from rfl,
        show milestones.take 5 = [0, 10, 20, 50, 70] from rfl,
        show milestones.take 6 = [0, 10, 20, 50, 70, 80] from rfl,
        show milestones.take 7 = [0, 10, 20, 50, 70, 80, 100] from rfl,
        List.chain'_cons]
  · rw [hpv]; interval_cases k <;> decide
  · rw [hpv]; interval_cases k <;> decide
  · rw [hpv]; interval_cases k <;> decide
  · rw [hpv, hcv]; interval_cases k <;> decide

/-- Witness for the amended C9 at the concrete all-success run: the first
reported progress value is 0 and the full milestone prefix is reported. -/
theorem progress_milestone_policy_witness :
    (progressValues (run_pipeline allOk cfgKaraoke)).head? = some 0 :=
  (progress_milestone_policy allOk cfgKaraoke).2.2.1

end Karaoke
